import Mathlib

/-!
Verification development for the `guibot` configuration module
(`guibot/config.py`): the global settings registry (`Config`, used as the
class of the module-level `GlobalConfig` object), the scope-restoring proxy
`TemporaryConfig`, and the backend container `LocalConfig`.

The Python code is shallowly embedded: the registry state is a total map from
setting names to runtime values, each property's combined getter/setter body
is translated into the `accessor` function, and the `LocalConfig` methods are
translated into pure functions that return the raised exception (if any)
together with the post-call state, so that atomicity-on-error is a provable
property rather than an artifact of the embedding.
-/

namespace Guibot

/-- Python runtime values that can flow through the config accessors.
Floats are represented as rationals (no arithmetic is ever performed on
them by the embedded code, they are only stored and compared). -/
inductive Value where
  | vNone
  | vBool (b : Bool)
  | vInt (n : Int)
  | vFloat (q : ℚ)
  | vStr (s : String)
deriving DecidableEq, Repr

/-- Rendering used for the `%s` formatting in error messages
(approximate for floats, irrelevant to every claim below). -/
def pyStr : Value → String
  | .vNone => "None"
  | .vBool true => "True"
  | .vBool false => "False"
  | .vInt n => toString n
  | .vFloat q => toString q
  | .vStr s => s

/-- A single-quote character, used when reproducing the source's
error-message formatting such as `"Backend '%s' ..."`. -/
def sq : String := String.singleton (Char.ofNat 39)

/-- The exceptions raised by `guibot/config.py`, identified by their concrete
Python class together with the formatted message.  `ValueError` comes from
the standard library; `UnsupportedBackendError` and `UninitializedBackendError`
are imported from `guibot.errors` and are distinct classes.  `keyError` models
a Python `KeyError` from a failed dict lookup; `other` stands for any
exception raised by user code inside a `TemporaryConfig` scope body. -/
inductive PyErr where
  | valueError (msg : String)
  | unsupportedBackendError (msg : String)
  | uninitializedBackendError (msg : String)
  | keyError (key : String)
  | other (msg : String)
deriving DecidableEq, Repr

/-- The settings of the global registry: one constructor per property of the
`Config` class (config.py lines 84-612).  `screen_autoconnect` is set in
`__init__` but has no property accessor, so it is not a registry setting. -/
inductive SettingName where
  | toggle_delay
  | click_delay
  | delay_after_drag
  | delay_before_drop
  | delay_before_keys
  | delay_between_keys
  | rescan_speed_on_find
  | wait_for_animations
  | smooth_mouse_drag
  | preprocess_special_chars
  | save_needle_on_error
  | image_logging_level
  | image_logging_step_width
  | image_quality
  | image_logging_destination
  | display_control_backend
  | find_backend
  | contour_threshold_backend
  | template_match_backend
  | feature_detect_backend
  | feature_extract_backend
  | feature_match_backend
  | text_detect_backend
  | text_ocr_backend
  | deep_learn_backend
  | hybrid_match_backend
deriving DecidableEq, Repr

/-- The state of the registry (the `_name` instance attributes backing the
properties): one current value per setting. -/
def ConfigState : Type := SettingName → Value

/-- Assignment to the backing attribute `self._name = value`. -/
def ConfigState.update (st : ConfigState) (name : SettingName) (v : Value) :
    ConfigState :=
  fun n => if n = name then v else st n

/-- The three validation patterns occurring in the property bodies. -/
inductive AccessorKind where
  | plain
  | boolean
  | displayControl
deriving DecidableEq, Repr

/-- Which validation pattern each property body uses:
`wait_for_animations`, `smooth_mouse_drag`, `preprocess_special_chars` and
`save_needle_on_error` test `value is True or value is False` and raise
`ValueError` otherwise (config.py lines 199-286); `display_control_backend`
tests membership in a fixed list (lines 387-393); every other property
stores the value without validation. -/
def kindOf : SettingName → AccessorKind
  | .wait_for_animations => .boolean
  | .smooth_mouse_drag => .boolean
  | .preprocess_special_chars => .boolean
  | .save_needle_on_error => .boolean
  | .display_control_backend => .displayControl
  | _ => .plain

/-- The admissible names for `display_control_backend` (config.py line 390). -/
def displayControlBackends : List String :=
  ["autopy", "xdotool", "vncdotool", "qemu", "pyautogui"]

/-- `value is True or value is False` (the test of the boolean setters). -/
def Value.isBool : Value → Bool
  | .vBool _ => true
  | _ => false

/-- Python's `value in names` for a list of strings: a non-string value is
never equal to any of the names. -/
def Value.strIn : Value → List String → Bool
  | .vStr s, names => decide (s ∈ names)
  | _, _ => false

/-- Outcome of one combined getter/setter call: the exception raised (if
any), the returned value (`some` on the getter branch, `none` for the
setter's `return None`), and the registry state after the call. -/
structure AccessorOut where
  err : Option PyErr
  ret : Option Value
  st : ConfigState

/-- The combined getter/setter body shared by all `Config` properties
(config.py lines 84-612): `if value is None: return current` is the getter
branch; otherwise the value is validated according to the property's pattern
and stored in the backing attribute, with the raise (when validation fails)
occurring before any assignment. -/
def accessor (name : SettingName) (value : Value) (st : ConfigState) :
    AccessorOut :=
  if value = .vNone then
    { err := none, ret := some (st name), st := st }
  else
    match kindOf name with
    | .plain =>
        { err := none, ret := none, st := st.update name value }
    | .boolean =>
        if value.isBool then
          { err := none, ret := none, st := st.update name value }
        else
          { err := some (.valueError ""), ret := none, st := st }
    | .displayControl =>
        if value.strIn displayControlBackends then
          { err := none, ret := none, st := st.update name value }
        else
          { err := some (.valueError ("Unsupported backend for GUI actions "
              ++ sq ++ pyStr value ++ sq)), ret := none, st := st }

/-- The condition under which a call `accessor name value` performs a write:
the value is an actual argument (not the `None` read sentinel) and passes the
property's validation. -/
def validWrite (name : SettingName) (v : Value) : Bool :=
  if v = .vNone then false
  else
    match kindOf name with
    | .plain => true
    | .boolean => v.isBool
    | .displayControl => v.strIn displayControlBackends

theorem accessor_none (name : SettingName) (st : ConfigState) :
    accessor name .vNone st = { err := none, ret := some (st name), st := st } := by
  simp [accessor]

theorem accessor_validWrite (name : SettingName) (v : Value) (st : ConfigState)
    (h : validWrite name v = true) :
    accessor name v st = { err := none, ret := none, st := st.update name v } := by
  by_cases hv : v = .vNone
  · rw [validWrite, if_pos hv] at h
    exact absurd h (by simp)
  · rw [validWrite, if_neg hv] at h
    rw [accessor, if_neg hv]
    cases hk : kindOf name <;> simp_all

theorem update_self (st : ConfigState) (name : SettingName) (v : Value) :
    st.update name v name = v := by
  simp [ConfigState.update]

theorem update_other (st : ConfigState) (name n : SettingName) (v : Value)
    (h : n ≠ name) : st.update name v n = st n := by
  simp [ConfigState.update, h]

/-- Association-list lookup with Python-dict `in` semantics. -/
def alistLookup {α β : Type} [DecidableEq α] : List (α × β) → α → Option β
  | [], _ => none
  | (k, v) :: rest, a => if k = a then some v else alistLookup rest a

/-- Association-list assignment with Python-dict semantics: an existing key
is overwritten in place, a new key is appended at the end (insertion order). -/
def alistSet {α β : Type} [DecidableEq α] : List (α × β) → α → β → List (α × β)
  | [], a, b => [(a, b)]
  | (k, v) :: rest, a, b =>
      if k = a then (a, b) :: rest else (k, v) :: alistSet rest a b

theorem alistLookup_alistSet_self {α β : Type} [DecidableEq α]
    (l : List (α × β)) (a : α) (b : β) :
    alistLookup (alistSet l a b) a = some b := by
  induction l with
  | nil => simp [alistSet, alistLookup]
  | cons kv rest ih =>
      by_cases hk : kv.1 = a
      · simp [alistSet, hk, alistLookup]
      · simpa [alistSet, hk, alistLookup] using ih

/-- `TemporaryConfig` (config.py lines 615-670): its only own state is the
`_original_values` dict mapping each setting written inside the scope to the
registry value observed before the first write of that setting. -/
structure TemporaryConfig where
  original_values : List (SettingName × Value)

/-- `TemporaryConfig.__getattribute__` (lines 644-647): a read falls back to
the `GlobalConfig` property getter. -/
def TemporaryConfig.getattr (g : ConfigState) (name : SettingName) : Value :=
  g name

/-- `TemporaryConfig.__setattr__` (lines 649-656): record the current
`GlobalConfig` value the first time this name is written in the scope, then
write through the `GlobalConfig` property setter (same validation as a
direct accessor call; a raise from the setter propagates after the snapshot
entry was already stored). -/
def TemporaryConfig.setattr (tc : TemporaryConfig) (name : SettingName)
    (value : Value) (g : ConfigState) :
    Option PyErr × TemporaryConfig × ConfigState :=
  let ov :=
    if (alistLookup tc.original_values name).isSome then tc.original_values
    else tc.original_values ++ [(name, g name)]
  let o := accessor name value g
  (o.err, ⟨ov⟩, o.st)

/-- The restoration loop of `TemporaryConfig.__exit__` (lines 667-668):
`setattr(GlobalConfig, name, value)` for every recorded pair, in insertion
order; a raise from a property setter stops the loop and propagates. -/
def restoreAll (g : ConfigState) :
    List (SettingName × Value) → Option PyErr × ConfigState
  | [] => (none, g)
  | (n, v) :: rest =>
      let o := accessor n v g
      match o.err with
      | none => restoreAll o.st rest
      | some e => (some e, o.st)

/-- `TemporaryConfig.__exit__` (lines 663-670): restore every recorded
original value, then clear the backup map.  The method ignores the exception
information arguments and returns `None`, so an exception from the scope
body is never suppressed. -/
def TemporaryConfig.exitScope (tc : TemporaryConfig) (g : ConfigState) :
    Option PyErr × TemporaryConfig × ConfigState :=
  match restoreAll g tc.original_values with
  | (none, g1) => (none, ⟨[]⟩, g1)
  | (some e, g1) => (some e, tc, g1)

/-- One step a scope body can take: write a setting through the proxy
(`cfg.name = value`), or raise an arbitrary exception. -/
inductive ScopeAction where
  | write (name : SettingName) (value : Value)
  | raiseExc (e : PyErr)

/-- Run a scope body: execute the actions in order, stopping at the first
raised exception (which then unwinds out of the body). -/
def runBody (tc : TemporaryConfig) (g : ConfigState) :
    List ScopeAction → Option PyErr × TemporaryConfig × ConfigState
  | [] => (none, tc, g)
  | ScopeAction.write n v :: rest =>
      match tc.setattr n v g with
      | (none, tc1, g1) => runBody tc1 g1 rest
      | (some e, tc1, g1) => (some e, tc1, g1)
  | ScopeAction.raiseExc e :: _ => (some e, tc, g)

/-- The whole `with TemporaryConfig() as cfg:` statement: `__init__` (empty
backup map), `__enter__` (returns the proxy), the body, then `__exit__`
unconditionally — Python runs `__exit__` both on normal completion and on an
exception unwinding out of the body, and since `__exit__` returns `None`
the body's exception continues to propagate (an exception raised inside
`__exit__` itself would replace it). -/
def withTemporaryConfig (g : ConfigState) (body : List ScopeAction) :
    Option PyErr × ConfigState :=
  let tc0 : TemporaryConfig := ⟨[]⟩
  let r := runBody tc0 g body
  let ex := TemporaryConfig.exitScope r.2.1 r.2.2
  (match ex.1 with
   | some e => some e
   | none => r.1, ex.2.2)

/-- `LocalConfig` (config.py lines 673-796): three dicts local to one
consumer instance.  `params` values are the per-category dicts such as
`{"backend": name}`. -/
structure LocalConfig where
  categories : List (String × String)
  algorithms : List (String × List String)
  params : List (String × List (String × String))
deriving DecidableEq, Repr

/-- The state of `LocalConfig.__init__` (lines 696-701) after the three
dicts are seeded and before the optional `configure`/`synchronize` calls:
`categories["type"] = "backend_types"`,
`algorithms["backend_types"] = ("cv", "dc")`, `params = {}`. -/
def LocalConfig.base : LocalConfig :=
  { categories := [("type", "backend_types")]
    algorithms := [("backend_types", ["cv", "dc"])]
    params := [] }

/-- `LocalConfig.__configure_backend` (lines 708-727); the public
`configure_backend` (lines 729-742) only delegates to it.  The pair returned
is (raised exception if any, the container afterwards): every `raise` in the
source occurs before the two `params` writes, which is what makes the
atomicity claim provable rather than assumed. -/
def LocalConfig.configure_backend (lc : LocalConfig) (backend : Option String)
    (category : String) (reset : Bool) : Option PyErr × LocalConfig :=
  if category ≠ "type" then
    (some (.unsupportedBackendError ("Backend category " ++ sq ++ category
        ++ sq ++ " is not supported")), lc)
  else
    -- `if reset: pass` — reset is accepted and has no effect here
    let b := backend.getD "cv"
    match alistLookup lc.categories category with
    | none => (some (.keyError category), lc)
    | some tkey =>
        match alistLookup lc.algorithms tkey with
        | none => (some (.keyError tkey), lc)
        | some algs =>
            if b ∈ algs then
              (none, { lc with
                params := alistSet lc.params category [("backend", b)] })
            else
              (some (.unsupportedBackendError ("Backend " ++ sq ++ b ++ sq
                  ++ " is not among the supported ones: "
                  ++ String.intercalate ", " algs)), lc)

/-- `LocalConfig.__synchronize_backend` (lines 756-771); the public
`synchronize_backend` (lines 773-786) only delegates to it.  The body
contains no assignment at all: it checks the category, defaults the backend
name to `"cv"`, and raises `UninitializedBackendError` when the name is not
a member of `algorithms[categories[category]]`. -/
def LocalConfig.synchronize_backend (lc : LocalConfig) (backend : Option String)
    (category : String) (reset : Bool) : Option PyErr × LocalConfig :=
  if category ≠ "type" then
    (some (.unsupportedBackendError ("Backend category " ++ sq ++ category
        ++ sq ++ " is not supported")), lc)
  else
    -- `if reset: pass` — reset is accepted and has no effect here
    let b := backend.getD "cv"
    match alistLookup lc.categories category with
    | none => (some (.keyError category), lc)
    | some tkey =>
        match alistLookup lc.algorithms tkey with
        | none => (some (.keyError tkey), lc)
        | some algs =>
            if b ∈ algs then
              (none, lc)
            else
              (some (.uninitializedBackendError ("Backend " ++ sq ++ b ++ sq
                  ++ " has not been configured yet")), lc)

/-- `LocalConfig.__init__` (lines 681-706): seed the dicts and then run
`__configure_backend()` and `__synchronize_backend()` according to the two
constructor flags. -/
def LocalConfig.init (doConfigure doSynchronize : Bool) :
    Option PyErr × LocalConfig :=
  let lc := LocalConfig.base
  match (if doConfigure then lc.configure_backend none "type" false
         else (none, lc)) with
  | (some e, lc1) => (some e, lc1)
  | (none, lc1) =>
      if doSynchronize then lc1.synchronize_backend none "type" false
      else (none, lc1)

/-- The four boolean settings (config.py lines 199-286). -/
def booleanSettings : List SettingName :=
  [.wait_for_animations, .smooth_mouse_drag, .preprocess_special_chars,
   .save_needle_on_error]

/-- A concrete registry state used to instantiate the parametric theorems. -/
def demoState : ConfigState := fun _ => Value.vStr "hybrid"

/-- Writing to one setting either leaves the registry unchanged (read branch
or validation failure) or updates exactly the written setting with a
non-`None` value. -/
theorem accessor_st_cases (S2 : SettingName) (v : Value) (g : ConfigState) :
    (accessor S2 v g).st = g ∨
    ((accessor S2 v g).st = g.update S2 v ∧ v ≠ Value.vNone) := by
  by_cases hv : v = .vNone
  · rw [hv, accessor_none]
    exact Or.inl rfl
  · rw [accessor, if_neg hv]
    cases hk : kindOf S2 with
    | plain => exact Or.inr ⟨rfl, hv⟩
    | boolean =>
        by_cases hb : v.isBool = true
        · rw [if_pos hb]
          exact Or.inr ⟨rfl, hv⟩
        · rw [if_neg hb]
          exact Or.inl rfl
    | displayControl =>
        by_cases hb : v.strIn displayControlBackends = true
        · rw [if_pos hb]
          exact Or.inr ⟨rfl, hv⟩
        · rw [if_neg hb]
          exact Or.inl rfl

/-- Claim C8: for every setting of the registry and every value its accessor
accepts, writing the value and then reading the setting back (both through
the accessor) returns exactly that value, with no error and the write
immediately visible in the registry state. -/
theorem setting_roundtrip (g : ConfigState) (S : SettingName) (v : Value)
    (h : validWrite S v = true) :
    (accessor S v g).err = none ∧ (accessor S v g).st S = v ∧
    (accessor S .vNone (accessor S v g).st).ret = some v := by
  rw [accessor_validWrite S v g h]
  refine ⟨rfl, update_self g S v, ?_⟩
  rw [accessor_none]
  simp [update_self]

theorem setting_roundtrip_witness :
    validWrite SettingName.find_backend (Value.vStr "contour") = true ∧
    ((accessor SettingName.find_backend (Value.vStr "contour") demoState).err
        = none ∧
      (accessor SettingName.find_backend (Value.vStr "contour") demoState).st
        SettingName.find_backend = Value.vStr "contour" ∧
      (accessor SettingName.find_backend Value.vNone
        (accessor SettingName.find_backend (Value.vStr "contour")
          demoState).st).ret = some (Value.vStr "contour")) :=
  ⟨by decide,
   setting_roundtrip demoState SettingName.find_backend (Value.vStr "contour")
     (by decide)⟩

/-- Claim C9: invoking any accessor with `None` is a read: it returns the
current value, changes nothing and raises nothing; and since the `None`
branch is the only one that skips the write, no accessor call can ever store
`None` (if the stored value is `None` after a call, it already was before). -/
theorem none_input_is_read (g : ConfigState) (S S2 : SettingName) (v : Value) :
    accessor S .vNone g = { err := none, ret := some (g S), st := g } ∧
    ((accessor S2 v g).st S = Value.vNone → g S = Value.vNone) := by
  refine ⟨accessor_none S g, ?_⟩
  intro hnone
  rcases accessor_st_cases S2 v g with hcase | ⟨hcase, hv⟩
  · rw [hcase] at hnone
    exact hnone
  · rw [hcase] at hnone
    by_cases hS : S = S2
    · subst hS
      rw [update_self] at hnone
      exact absurd hnone hv
    · rw [update_other g S2 S v hS] at hnone
      exact hnone

theorem none_input_is_read_witness :
    (accessor SettingName.toggle_delay Value.vNone demoState =
      { err := none, ret := some (demoState SettingName.toggle_delay),
        st := demoState }) ∧
    (accessor SettingName.wait_for_animations Value.vNone demoState).st
        SettingName.toggle_delay = Value.vNone →
      demoState SettingName.toggle_delay = Value.vNone :=
  fun h =>
    (none_input_is_read demoState SettingName.toggle_delay
      SettingName.wait_for_animations Value.vNone).2 h.2

/-- Claim C7: each of the four boolean settings rejects every actual
argument that is not a boolean with a bare `ValueError` (the `InvalidValue`
failure kind) and leaves the registry unchanged, while `True`/`False` are
accepted and read back exactly.  `None` is not an argument value: it is the
no-argument sentinel selecting the getter branch (see the `None` claim). -/
theorem boolean_setting_write (g : ConfigState) (S : SettingName)
    (hS : S ∈ booleanSettings) (v : Value) (hvNone : v ≠ Value.vNone)
    (hvb : v.isBool = false) (b : Bool) :
    accessor S v g
      = { err := some (.valueError ""), ret := none, st := g } ∧
    (accessor S (.vBool b) g).err = none ∧
    (accessor S .vNone (accessor S (.vBool b) g).st).ret
      = some (Value.vBool b) := by
  have hk : kindOf S = .boolean := by
    simp only [booleanSettings, List.mem_cons, List.mem_singleton] at hS
    rcases hS with rfl | rfl | rfl | rfl | h <;> first | rfl | cases h
  have hw : validWrite S (.vBool b) = true := by
    rw [validWrite, if_neg (by simp), hk]
    rfl
  refine ⟨?_, ?_, ?_⟩
  · rw [accessor, if_neg hvNone, hk, if_neg (by rw [hvb]; exact Bool.false_ne_true)]
  · rw [accessor_validWrite S (.vBool b) g hw]
  · rw [accessor_validWrite S (.vBool b) g hw, accessor_none]
    simp [update_self]

theorem boolean_setting_write_witness :
    (accessor SettingName.wait_for_animations (Value.vInt 1) demoState
      = { err := some (.valueError ""), ret := none, st := demoState }) ∧
    (accessor SettingName.wait_for_animations (Value.vBool true)
        demoState).err = none ∧
    (accessor SettingName.wait_for_animations Value.vNone
      (accessor SettingName.wait_for_animations (Value.vBool true)
        demoState).st).ret = some (Value.vBool true) :=
  boolean_setting_write demoState SettingName.wait_for_animations (by decide)
    (Value.vInt 1) (by decide) (by decide) true

/-- Claim C6: writing any of the five admissible names to
`display_control_backend` succeeds and reads back exactly; writing any other
string fails with a `ValueError` (the `UnsupportedBackend` failure kind)
raised before the assignment, leaving the stored value unchanged. -/
theorem display_control_backend_write (g : ConfigState) (s : String) :
    (s ∈ displayControlBackends →
      (accessor .display_control_backend (.vStr s) g).err = none ∧
      (accessor .display_control_backend .vNone
        (accessor .display_control_backend (.vStr s) g).st).ret
        = some (Value.vStr s)) ∧
    (s ∉ displayControlBackends →
      accessor .display_control_backend (.vStr s) g =
        { err := some (.valueError ("Unsupported backend for GUI actions "
            ++ sq ++ s ++ sq)), ret := none, st := g }) := by
  constructor
  · intro hmem
    have hw : validWrite .display_control_backend (.vStr s) = true := by
      simp [validWrite, kindOf, Value.strIn, hmem]
    rw [accessor_validWrite _ _ _ hw, accessor_none]
    simp [update_self]
  · intro hmem
    have hb : Value.strIn (.vStr s) displayControlBackends = false := by
      simpa [Value.strIn] using hmem
    simp [accessor, kindOf, hb, pyStr]

theorem display_control_backend_write_witness :
    ((accessor .display_control_backend (.vStr "autopy") demoState).err
        = none ∧
      (accessor .display_control_backend .vNone
        (accessor .display_control_backend (.vStr "autopy") demoState).st).ret
        = some (Value.vStr "autopy")) ∧
    accessor .display_control_backend (.vStr "nonesuch") demoState =
      { err := some (.valueError ("Unsupported backend for GUI actions "
          ++ sq ++ "nonesuch" ++ sq)), ret := none, st := demoState } :=
  ⟨(display_control_backend_write demoState "autopy").1 (by decide),
   (display_control_backend_write demoState "nonesuch").2 (by decide)⟩

/-- Writing back the snapshot value undoes any sequence of writes that only
touched the snapshotted setting. -/
theorem update_restore (g h : ConfigState) (S : SettingName) (x : Value)
    (hgx : g S = x) (hagree : ∀ n, n ≠ S → h n = g n) :
    h.update S x = g := by
  funext n
  by_cases hn : n = S
  · subst hn
    simp [ConfigState.update, hgx]
  · rw [update_other h S n x hn, hagree n hn]

/-- Claim C1: inside a `TemporaryConfig` scope, writing `y` and then `z` to
a setting whose registry value was `x` records the setting exactly once in
`_original_values` (with the pre-first-write value `x`), a read inside the
scope returns `z`, and exiting the scope normally restores the whole
registry: one restoration despite two writes. -/
theorem scope_two_writes_single_restore (g : ConfigState) (S : SettingName)
    (x y z : Value) (hx : validWrite S x = true) (hy : validWrite S y = true)
    (hz : validWrite S z = true) (hgx : g S = x) :
    runBody ⟨[]⟩ g [ScopeAction.write S y, ScopeAction.write S z] =
      (none, ⟨[(S, x)]⟩, (g.update S y).update S z) ∧
    TemporaryConfig.getattr ((g.update S y).update S z) S = z ∧
    withTemporaryConfig g [ScopeAction.write S y, ScopeAction.write S z] =
      (none, g) := by
  have h1 : TemporaryConfig.setattr ⟨[]⟩ S y g =
      (none, ⟨[(S, x)]⟩, g.update S y) := by
    simp [TemporaryConfig.setattr, alistLookup, hgx,
      accessor_validWrite S y g hy]
  have h2 : TemporaryConfig.setattr ⟨[(S, x)]⟩ S z (g.update S y) =
      (none, ⟨[(S, x)]⟩, (g.update S y).update S z) := by
    simp [TemporaryConfig.setattr, alistLookup,
      accessor_validWrite S z (g.update S y) hz]
  have hrun : runBody ⟨[]⟩ g [ScopeAction.write S y, ScopeAction.write S z] =
      (none, ⟨[(S, x)]⟩, (g.update S y).update S z) := by
    simp only [runBody, h1, h2]
  have hback : ((g.update S y).update S z).update S x = g :=
    update_restore g _ S x hgx (fun n hn => by
      rw [update_other _ S n z hn, update_other _ S n y hn])
  have hexit : TemporaryConfig.exitScope ⟨[(S, x)]⟩
      ((g.update S y).update S z) = (none, ⟨[]⟩, g) := by
    simp [TemporaryConfig.exitScope, restoreAll,
      accessor_validWrite S x _ hx, hback]
  refine ⟨hrun, update_self _ S z, ?_⟩
  simp [withTemporaryConfig, hrun, hexit]

theorem scope_two_writes_single_restore_witness :
    (runBody ⟨[]⟩ demoState [ScopeAction.write SettingName.find_backend
        (Value.vStr "contour"), ScopeAction.write SettingName.find_backend
        (Value.vStr "template")] =
      (none, ⟨[(SettingName.find_backend, Value.vStr "hybrid")]⟩,
        (demoState.update SettingName.find_backend
          (Value.vStr "contour")).update SettingName.find_backend
          (Value.vStr "template"))) ∧
    TemporaryConfig.getattr ((demoState.update SettingName.find_backend
        (Value.vStr "contour")).update SettingName.find_backend
        (Value.vStr "template")) SettingName.find_backend =
      Value.vStr "template" ∧
    withTemporaryConfig demoState [ScopeAction.write SettingName.find_backend
        (Value.vStr "contour"), ScopeAction.write SettingName.find_backend
        (Value.vStr "template")] = (none, demoState) :=
  scope_two_writes_single_restore demoState SettingName.find_backend
    (Value.vStr "hybrid") (Value.vStr "contour") (Value.vStr "template")
    (by decide) (by decide) (by decide) rfl

/-- Claim C2: if the scope body raises any error after writing `y` to a
setting whose pre-entry value was `x`, the error propagates out of the
scope and the registry value is `x` again: `__exit__`'s restoration runs
unconditionally. -/
theorem scope_restores_on_error (g : ConfigState) (S : SettingName)
    (x y : Value) (e : PyErr) (hx : validWrite S x = true)
    (hy : validWrite S y = true) (hgx : g S = x) :
    withTemporaryConfig g [ScopeAction.write S y, ScopeAction.raiseExc e] =
      (some e, g) := by
  have h1 : TemporaryConfig.setattr ⟨[]⟩ S y g =
      (none, ⟨[(S, x)]⟩, g.update S y) := by
    simp [TemporaryConfig.setattr, alistLookup, hgx,
      accessor_validWrite S y g hy]
  have hrun : runBody ⟨[]⟩ g [ScopeAction.write S y, ScopeAction.raiseExc e] =
      (some e, ⟨[(S, x)]⟩, g.update S y) := by
    simp only [runBody, h1]
  have hback : (g.update S y).update S x = g :=
    update_restore g _ S x hgx (fun n hn => update_other g S n y hn)
  have hexit : TemporaryConfig.exitScope ⟨[(S, x)]⟩ (g.update S y) =
      (none, ⟨[]⟩, g) := by
    simp [TemporaryConfig.exitScope, restoreAll,
      accessor_validWrite S x _ hx, hback]
  simp [withTemporaryConfig, hrun, hexit]

theorem scope_restores_on_error_witness :
    withTemporaryConfig demoState [ScopeAction.write SettingName.find_backend
        (Value.vStr "contour"),
      ScopeAction.raiseExc (PyErr.other "boom")] =
      (some (PyErr.other "boom"), demoState) :=
  scope_restores_on_error demoState SettingName.find_backend
    (Value.vStr "hybrid") (Value.vStr "contour") (PyErr.other "boom")
    (by decide) (by decide) rfl

/-- `__synchronize_backend` on category `"type"`, written as one equation:
a pure membership check on `algorithms[categories["type"]]`, never touching
the container. -/
theorem synchronize_backend_eq (lc : LocalConfig) (backend : Option String)
    (reset : Bool) (tkey : String) (algs : List String)
    (hc : alistLookup lc.categories "type" = some tkey)
    (ha : alistLookup lc.algorithms tkey = some algs) :
    lc.synchronize_backend backend "type" reset =
      (if backend.getD "cv" ∈ algs then none
       else some (.uninitializedBackendError ("Backend " ++ sq
         ++ backend.getD "cv" ++ sq ++ " has not been configured yet")), lc)
    := by
  simp only [LocalConfig.synchronize_backend, hc, ha]
  by_cases hmem : backend.getD "cv" ∈ algs
  · simp [hmem]
  · simp [hmem]

/-- `__configure_backend` on category `"type"`, written as one equation. -/
theorem configure_backend_eq (lc : LocalConfig) (backend : Option String)
    (reset : Bool) (tkey : String) (algs : List String)
    (hc : alistLookup lc.categories "type" = some tkey)
    (ha : alistLookup lc.algorithms tkey = some algs) :
    lc.configure_backend backend "type" reset =
      (if backend.getD "cv" ∈ algs then
        (none, { lc with params :=
          (alistSet lc.params "type" [("backend", backend.getD "cv")]) })
       else
        (some (.unsupportedBackendError ("Backend " ++ sq
          ++ backend.getD "cv" ++ sq ++ " is not among the supported ones: "
          ++ String.intercalate ", " algs)), lc)) := by
  simp only [LocalConfig.configure_backend, hc, ha]
  by_cases hmem : backend.getD "cv" ∈ algs
  · simp [hmem]
  · simp [hmem]

/-- Claim C3: `synchronize_backend(backend, "type")` succeeds exactly when
the backend name (defaulted to `"cv"`) is a member of
`algorithms[categories["type"]]`, with no requirement that `configure` ever
ran — in particular it succeeds on the fresh, never-configured container —
it never mutates the container, and a second call right after returns the
same result. -/
theorem synchronize_membership_idempotent (lc : LocalConfig)
    (backend : Option String) (reset : Bool) (tkey : String)
    (algs : List String)
    (hc : alistLookup lc.categories "type" = some tkey)
    (ha : alistLookup lc.algorithms tkey = some algs) :
    (((lc.synchronize_backend backend "type" reset).1 = none) ↔
      backend.getD "cv" ∈ algs) ∧
    (lc.synchronize_backend backend "type" reset).2 = lc ∧
    ((lc.synchronize_backend backend "type" reset).2).synchronize_backend
        backend "type" reset = lc.synchronize_backend backend "type" reset ∧
    LocalConfig.base.synchronize_backend none "type" false =
      (none, LocalConfig.base) := by
  have he := synchronize_backend_eq lc backend reset tkey algs hc ha
  have h2 : (lc.synchronize_backend backend "type" reset).2 = lc := by
    rw [he]
  refine ⟨?_, h2, by rw [h2], by decide⟩
  rw [he]
  by_cases hmem : backend.getD "cv" ∈ algs <;> simp [hmem]

theorem synchronize_membership_idempotent_witness :
    (((LocalConfig.base.synchronize_backend (some "dc") "type" false).1
        = none) ↔ (some "dc" : Option String).getD "cv" ∈ ["cv", "dc"]) ∧
    (LocalConfig.base.synchronize_backend (some "dc") "type" false).2 =
      LocalConfig.base ∧
    ((LocalConfig.base.synchronize_backend (some "dc") "type"
        false).2).synchronize_backend (some "dc") "type" false =
      LocalConfig.base.synchronize_backend (some "dc") "type" false ∧
    LocalConfig.base.synchronize_backend none "type" false =
      (none, LocalConfig.base) :=
  synchronize_membership_idempotent LocalConfig.base (some "dc") false
    "backend_types" ["cv", "dc"] (by decide) (by decide)

/-- Claim C4, counterexample: on the fresh container (`params` empty, so
`params["type"]` was never populated by `configure`),
`synchronize_backend("cv", "type")` nevertheless succeeds — refuting
"synchronize for a category never succeeds unless configure has already
populated params[category]". -/
theorem synchronize_without_configure_cex :
    (LocalConfig.base.synchronize_backend (some "cv") "type" false).1 = none ∧
    alistLookup LocalConfig.base.params "type" = none := by
  exact ⟨by decide, by decide⟩

/-- Claim C4 as amended: a successful `synchronize_backend` implies only
that the (defaulted) backend name is a member of
`algorithms[categories[category]]` — not that `params[category]` exists;
the populated-params half of the invariant is established by
`configure_backend`: when it succeeds, `params[category]` holds a
`"backend"` entry that is a member of `algorithms[categories[category]]`. -/
theorem synchronize_configure_invariant (lc : LocalConfig)
    (backend : Option String) (category : String) (reset : Bool)
    (tkey : String) (algs : List String)
    (hc : alistLookup lc.categories category = some tkey)
    (ha : alistLookup lc.algorithms tkey = some algs) :
    ((lc.synchronize_backend backend category reset).1 = none →
      backend.getD "cv" ∈ algs) ∧
    ((lc.configure_backend backend category reset).1 = none →
      alistLookup ((lc.configure_backend backend category reset).2).params
          category = some [("backend", backend.getD "cv")] ∧
      backend.getD "cv" ∈ algs) := by
  by_cases hcat : category = "type"
  · subst hcat
    have hs := synchronize_backend_eq lc backend reset tkey algs hc ha
    have hcfg := configure_backend_eq lc backend reset tkey algs hc ha
    by_cases hmem : backend.getD "cv" ∈ algs
    · rw [hs, hcfg, if_pos hmem, if_pos hmem]
      exact ⟨fun _ => hmem,
        fun _ => ⟨alistLookup_alistSet_self lc.params "type" _, hmem⟩⟩
    · rw [hs, hcfg, if_neg hmem, if_neg hmem]
      exact ⟨fun h => by simp at h, fun h => by simp at h⟩
  · constructor
    · intro h
      rw [LocalConfig.synchronize_backend, if_pos hcat] at h
      simp at h
    · intro h
      rw [LocalConfig.configure_backend, if_pos hcat] at h
      simp at h

theorem synchronize_configure_invariant_witness :
    ((some "cv" : Option String).getD "cv" ∈ ["cv", "dc"]) ∧
    alistLookup ((LocalConfig.base.configure_backend (some "cv") "type"
        false).2).params "type" =
      some [("backend", (some "cv" : Option String).getD "cv")] :=
  ⟨(synchronize_configure_invariant LocalConfig.base (some "cv") "type" false
      "backend_types" ["cv", "dc"] (by decide) (by decide)).1 (by decide),
   ((synchronize_configure_invariant LocalConfig.base (some "cv") "type" false
      "backend_types" ["cv", "dc"] (by decide) (by decide)).2 (by decide)).1⟩

/-- Claim C5, counterexample: the failure raised for an unsupported category
(`configure_backend("cv", "dc")`) is an `UnsupportedBackendError`, the very
same concrete error class raised for an inadmissible backend name — not a
distinct error kind; only the messages differ. -/
theorem configure_category_error_class_cex :
    (LocalConfig.base.configure_backend (some "cv") "dc" false).1 =
      some (PyErr.unsupportedBackendError ("Backend category " ++ sq ++ "dc"
        ++ sq ++ " is not supported")) ∧
    (LocalConfig.base.configure_backend (some "nonesuch") "type" false).1 =
      some (PyErr.unsupportedBackendError ("Backend " ++ sq ++ "nonesuch"
        ++ sq ++ " is not among the supported ones: "
        ++ String.intercalate ", " ["cv", "dc"])) := by
  exact ⟨by decide, by decide⟩

/-- Claim C5 as amended: for every category other than `"type"`,
`configure_backend` fails before touching any state, raising
`UnsupportedBackendError` with a message naming the unsupported category —
the same error class as for an inadmissible backend name, distinguishable
only by message. -/
theorem configure_bad_category_error (lc : LocalConfig)
    (backend : Option String) (reset : Bool) (category : String)
    (h : category ≠ "type") :
    lc.configure_backend backend category reset =
      (some (PyErr.unsupportedBackendError ("Backend category " ++ sq
        ++ category ++ sq ++ " is not supported")), lc) := by
  rw [LocalConfig.configure_backend, if_pos h]

theorem configure_bad_category_error_witness :
    LocalConfig.base.configure_backend (some "cv") "dc" false =
      (some (PyErr.unsupportedBackendError ("Backend category " ++ sq
        ++ "dc" ++ sq ++ " is not supported")), LocalConfig.base) :=
  configure_bad_category_error LocalConfig.base (some "cv") false "dc"
    (by decide)

/-- Claim C10: `configure_backend` is atomic on error — both of its raises
happen before any write, so a failing call returns the container exactly as
it was; `categories` and `algorithms` are never written at all, and `params`
is overwritten (for the requested category only) exactly on the success
path. -/
theorem configure_backend_atomic (lc : LocalConfig) (backend : Option String)
    (category : String) (reset : Bool) :
    ((lc.configure_backend backend category reset).2.categories =
        lc.categories ∧
      (lc.configure_backend backend category reset).2.algorithms =
        lc.algorithms) ∧
    (∀ e, (lc.configure_backend backend category reset).1 = some e →
      (lc.configure_backend backend category reset).2 = lc) ∧
    ((lc.configure_backend backend category reset).1 = none →
      (lc.configure_backend backend category reset).2 =
        { lc with params :=
            (alistSet lc.params category [("backend", backend.getD "cv")]) })
    := by
  by_cases hcat : category ≠ "type"
  · rw [LocalConfig.configure_backend, if_pos hcat]
    exact ⟨⟨rfl, rfl⟩, fun e _ => rfl, fun h => by simp at h⟩
  · push_neg at hcat
    subst hcat
    rcases hl1 : alistLookup lc.categories "type" with _ | tkey
    · simp [LocalConfig.configure_backend, hl1]
    · rcases hl2 : alistLookup lc.algorithms tkey with _ | algs
      · simp [LocalConfig.configure_backend, hl1, hl2]
      · have hcfg := configure_backend_eq lc backend reset tkey algs hl1 hl2
        by_cases hmem : backend.getD "cv" ∈ algs
        · rw [hcfg, if_pos hmem]
          exact ⟨⟨rfl, rfl⟩, fun e h => by simp at h, fun _ => rfl⟩
        · rw [hcfg, if_neg hmem]
          exact ⟨⟨rfl, rfl⟩, fun e _ => rfl, fun h => by simp at h⟩

theorem configure_backend_atomic_witness :
    ((LocalConfig.base.configure_backend (some "x") "type"
        false).2.categories = LocalConfig.base.categories ∧
      (LocalConfig.base.configure_backend (some "x") "type"
        false).2.algorithms = LocalConfig.base.algorithms) ∧
    (LocalConfig.base.configure_backend (some "x") "type" false).2 =
      LocalConfig.base :=
  ⟨(configure_backend_atomic LocalConfig.base (some "x") "type" false).1,
   (configure_backend_atomic LocalConfig.base (some "x") "type"
      false).2.1
     (PyErr.unsupportedBackendError ("Backend " ++ sq ++ "x" ++ sq
       ++ " is not among the supported ones: "
       ++ String.intercalate ", " ["cv", "dc"])) (by decide)⟩

end Guibot
